import Mathlib

/-!
Verification development for the Open Measures API gateway
(`OM_api.py`, the interactive CLI client, and `local-api-OM.py`, the
Flask HTTP server).  Python strings are embedded as lists of characters
(`Str`), JSON values as the inductive `Json` (numbers as rationals, so
fractional JSON literals are representable), and fallible Python
expressions as the monad `Py` (an `Except` whose error is a raised
Python exception).  External HTTP traffic (the Anthropic completion
endpoint and the Open Measures search endpoint) is an oracle datum per
call: either a transport-level failure (any `requests.RequestException`,
including non-2xx via `raise_for_status`), a response whose body is not
JSON, or a decoded JSON body.
-/

namespace OMApi

/-- A Python `str`, embedded as its sequence of characters. -/
abbrev Str := List Char

/-- Whitespace characters recognised by Python's `str.strip()`
(ASCII subset; `str.strip()` also strips rarer Unicode spaces, which do
not occur in any string this development reasons about). -/
def isPyWs (c : Char) : Bool :=
  c = ' ' || c = '\t' || c = '\n' || c = '\r' || c = '\x0b' || c = '\x0c'

/-- Python `str.strip()`: drop leading and trailing whitespace. -/
def pyStrip (s : Str) : Str :=
  ((s.dropWhile isPyWs).reverse.dropWhile isPyWs).reverse

/-- Python's substring test `p in s` (`str.__contains__`). -/
def containsSub : Str → Str → Bool
  | s, p =>
    if p.isPrefixOf s then true
    else
      match s with
      | [] => false
      | _ :: t => containsSub t p

/-- Python `s.split("\n")`: split on every newline, keeping empty pieces;
the result is always non-empty. -/
def splitNl : Str → List Str
  | [] => [[]]
  | c :: t =>
    if c = '\n' then [] :: splitNl t
    else (c :: (splitNl t).headI) :: (splitNl t).tail

/-- Python `"\n".join(lines)`. -/
def joinNl : List Str → Str
  | [] => []
  | [x] => x
  | x :: y :: t => x ++ '\n' :: joinNl (y :: t)

/-- The text after the first occurrence of the separator `p` in `s`
(Python `s.split(p, 1)[1]`, defined when `p in s`).  `p` is assumed
non-empty (the program only uses `"]:"`). -/
def afterFirst : Str → Str → Str
  | s, p =>
    if p.isPrefixOf s then s.drop p.length
    else
      match s with
      | [] => []
      | _ :: t => afterFirst t p

/-- JSON values as decoded by Python's `json` module.  Numbers are
rationals (covering every literal the grammar admits); `NaN`,
`Infinity` and `-Infinity` — accepted by `json.loads` by default — get
their own constructors.  Object fields are kept in source order with
duplicates; lookups take the last occurrence, matching `dict` insertion
semantics. -/
inductive Json where
  | null
  | bool (b : Bool)
  | num (q : ℚ)
  | nanVal
  | infVal (neg : Bool)
  | str (s : Str)
  | arr (xs : List Json)
  | obj (fields : List (Str × Json))

/-- Last-occurrence-wins association lookup (Python `dict` built from a
key/value sequence: later duplicates override earlier ones). -/
def lookupLast : List (Str × Json) → Str → Option Json
  | [], _ => none
  | (k', v) :: t, k =>
    match lookupLast t k with
    | some r => some r
    | none => if k' = k then some v else none

/-- Key lookup on a JSON object (`none` on non-objects or missing keys). -/
def Json.lookup : Json → Str → Option Json
  | .obj fs, k => lookupLast fs k
  | _, _ => none

/-- Python truthiness (`bool(x)`) of a decoded JSON value. -/
def pyTruthy : Json → Bool
  | .null => false
  | .bool b => b
  | .num q => decide (q ≠ 0)
  | .nanVal => true
  | .infVal _ => true
  | .str s => decide (s ≠ [])
  | .arr xs => !xs.isEmpty
  | .obj fs => !fs.isEmpty

/-- Kinds of Python exceptions the embedded code can raise.  The CLI's
`except json.JSONDecodeError` / `except Exception` pair only needs the
`jsonDecode` kind to be distinguished from the rest. -/
inductive ExcKind where
  | jsonDecode
  | typeError
  | keyError
  | indexError
  | attributeError
  | valueError
deriving DecidableEq

/-- A raised Python exception: its kind and its rendered message. -/
structure PyExc where
  kind : ExcKind
  msg : Str
deriving DecidableEq

/-- A fallible Python computation: either a returned value or a raised
exception. -/
abbrev Py (α : Type) := Except PyExc α

instance {ε α : Type} [DecidableEq ε] [DecidableEq α] : DecidableEq (Except ε α) :=
  fun a b =>
    match a, b with
    | .ok x, .ok y => if h : x = y then .isTrue (by rw [h]) else .isFalse (by simp [h])
    | .error x, .error y => if h : x = y then .isTrue (by rw [h]) else .isFalse (by simp [h])
    | .ok _, .error _ => .isFalse (by simp)
    | .error _, .ok _ => .isFalse (by simp)

/-- Holds the value `true` exactly when the computation raised. -/
def pyRaises {α : Type} : Py α → Bool
  | .error _ => true
  | .ok _ => false

/-- Decimal rendering of an integer (Python `str(int)`). -/
def intToStr (n : Int) : Str := (toString n).data

/-- Rendering of a JSON number.  Integral values render as Python
integers; non-integral values (which no claim ever renders) are shown
as numerator/denominator. -/
def numToStr (q : ℚ) : Str :=
  if q.den = 1 then intToStr q.num
  else intToStr q.num ++ ('/' :: intToStr (Int.ofNat q.den))

mutual

/-- Python `str(x)` for a decoded JSON value `x`. -/
def pyStrJson : Json → Str
  | .null => ("None").data
  | .bool b => (if b then "True" else "False").data
  | .num q => numToStr q
  | .nanVal => ("nan").data
  | .infVal neg => (if neg then "-inf" else "inf").data
  | .str s => s
  | .arr xs => '[' :: (pyReprElems xs ++ [']'])
  | .obj fs => '\x7b' :: (pyReprFields fs ++ ['\x7d'])

/-- Python `repr(x)` (used by `str` on container elements).  String
escaping inside `repr` is simplified to plain single quotes; no claim
renders a string that would need escaping. -/
def pyRepr : Json → Str
  | .str s => '\x27' :: (s ++ ['\x27'])
  | .null => ("None").data
  | .bool b => (if b then "True" else "False").data
  | .num q => numToStr q
  | .nanVal => ("nan").data
  | .infVal neg => (if neg then "-inf" else "inf").data
  | .arr xs => '[' :: (pyReprElems xs ++ [']'])
  | .obj fs => '\x7b' :: (pyReprFields fs ++ ['\x7d'])

def pyReprElems : List Json → Str
  | [] => []
  | [x] => pyRepr x
  | x :: xs => pyRepr x ++ (", ").data ++ pyReprElems xs

def pyReprFields : List (Str × Json) → Str
  | [] => []
  | [(k, v)] => '\x27' :: (k ++ ('\x27' :: (": ").data ++ pyRepr v))
  | (k, v) :: fs =>
    '\x27' :: (k ++ ('\x27' :: (": ").data ++ pyRepr v)) ++ (", ").data ++ pyReprFields fs

end

/-- Python `str(x)` where `x` may be `None` (e.g. `dict.get` with no
default). -/
def pyStrOpt : Option Json → Str
  | none => ("None").data
  | some j => pyStrJson j

/-- Python `k in x` for a decoded JSON value `x`: key test on dicts,
membership on lists, substring test on strings; raises `TypeError`
otherwise. -/
def pyContains (j : Json) (k : Str) : Py Bool :=
  match j with
  | .obj fs => .ok (lookupLast fs k).isSome
  | .arr xs => .ok (xs.any fun x => match x with | .str s => decide (s = k) | _ => false)
  | .str s => .ok (containsSub s k)
  | _ => .error ⟨.typeError, ("argument of type is not iterable").data⟩

/-- Python `x[k]` for a string key `k`: dict lookup (`KeyError` when
missing); `TypeError` on lists, strings and scalars. -/
def pyGetItem (j : Json) (k : Str) : Py Json :=
  match j with
  | .obj fs =>
    match lookupLast fs k with
    | some v => .ok v
    | none => .error ⟨.keyError, k⟩
  | _ => .error ⟨.typeError, ("indices must be integers").data⟩

/-- Python `x.get(k, d)`: only dicts have `.get`; anything else raises
`AttributeError`. -/
def pyGetD (j : Json) (k : Str) (d : Json) : Py Json :=
  match j with
  | .obj fs =>
    match lookupLast fs k with
    | some v => .ok v
    | none => .ok d
  | _ => .error ⟨.attributeError, ("object has no attribute get").data⟩

/-- Python `x.get(k)` (default `None`). -/
def pyGetNone (j : Json) (k : Str) : Py (Option Json) :=
  match j with
  | .obj fs => .ok (lookupLast fs k)
  | _ => .error ⟨.attributeError, ("object has no attribute get").data⟩

/-- Python `x[:n]`: slices strings and lists; raises `TypeError` on
anything unsliceable. -/
def pySlice (j : Json) (n : Nat) : Py Json :=
  match j with
  | .str s => .ok (.str (s.take n))
  | .arr xs => .ok (.arr (xs.take n))
  | _ => .error ⟨.typeError, ("object is not subscriptable").data⟩

/-- Python `len(x)`. -/
def pyLen (j : Json) : Py Nat :=
  match j with
  | .str s => .ok s.length
  | .arr xs => .ok xs.length
  | .obj fs => .ok ((fs.map Prod.fst).dedup.length)
  | _ => .error ⟨.typeError, ("object has no len").data⟩

/-- Python `a or b`: `a` when truthy, else `b`. -/
def pyOr (a b : Json) : Json :=
  if pyTruthy a then a else b

/-- Python `min(a, b)` on decoded JSON values.  Defined on numbers (and
booleans, which are `int` in Python); mixed or non-numeric operands
raise `TypeError`, exactly as `min("20", 10000)` does. -/
def pyMin (a b : Json) : Py Json :=
  match a, b with
  | .num x, .num y => .ok (if x ≤ y then .num x else .num y)
  | .bool x, .num y =>
    .ok (if (if x then (1 : ℚ) else 0) ≤ y then .bool x else .num y)
  | .num x, .bool y =>
    .ok (if x ≤ (if y then (1 : ℚ) else 0) then .num x else .bool y)
  | .bool x, .bool y =>
    .ok (if (if x then (1 : ℚ) else 0) ≤ (if y then (1 : ℚ) else 0) then .bool x else .bool y)
  | _, _ => .error ⟨.typeError, ("not supported between instances").data⟩

/-- Digit-string to natural number (`none` when empty or non-digit). -/
def digitsToNat (ds : Str) : Option Nat :=
  if ds = [] then none
  else ds.foldl (fun acc c =>
    acc.bind fun a => if c.isDigit then some (a * 10 + (c.toNat - 48)) else none) (some 0)

/-- Python `int(s)` on a string: strips whitespace, allows one sign,
then decimal digits (underscore digit grouping and non-ASCII digits are
not modelled; no header in any claim uses them).  `none` models the
`ValueError` raise. -/
def pyIntOfStr (s : Str) : Option Int :=
  match pyStrip s with
  | '-' :: ds => (digitsToNat ds).map fun n => -(n : Int)
  | '+' :: ds => (digitsToNat ds).map fun n => (n : Int)
  | ds => (digitsToNat ds).map fun n => (n : Int)

/-! ### Parsing (`json.loads`)

A recursive-descent parser for the grammar Python's `json.loads`
accepts by default: RFC 8259 JSON plus the `NaN` / `Infinity` /
`-Infinity` extension, strict strings (raw control characters are
errors), and no leading zeros in numbers.  Error messages mirror the
stdlib's phrasing minus positions and quote marks.  Recursion is
bounded by fuel; `jsonLoads` supplies more fuel than any input can
consume (every recursive step follows at least one consumed character
at most two calls earlier). -/

/-- JSON whitespace (the only characters `json.loads` skips). -/
def isJsonWs (c : Char) : Bool :=
  c = ' ' || c = '\t' || c = '\n' || c = '\r'

def skipWs : Str → Str
  | [] => []
  | c :: t => if isJsonWs c then skipWs t else c :: t

def hexVal (c : Char) : Option Nat :=
  if '0' ≤ c ∧ c ≤ '9' then some (c.toNat - 48)
  else if 'a' ≤ c ∧ c ≤ 'f' then some (c.toNat - 87)
  else if 'A' ≤ c ∧ c ≤ 'F' then some (c.toNat - 55)
  else none

/-- A decoded `\uXXXX` code unit as a `Char`.  Python admits lone
surrogates inside decoded strings; Lean's `Char` cannot, so those map
to U+FFFD (no claim decodes a surrogate escape). -/
def codeToChar (n : Nat) : Char :=
  if n.isValidChar then Char.ofNat n else '�'

/-- String-literal body parser (position: just after the opening
quote).  Returns the decoded characters and the remainder after the
closing quote. -/
def parseStrLit : Nat → Str → Except Str (Str × Str)
  | 0, _ => .error ("Unterminated string starting at").data
  | _ + 1, [] => .error ("Unterminated string starting at").data
  | fuel + 1, c :: t =>
    if c = '"' then .ok ([], t)
    else if c = '\\' then
      match t with
      | [] => .error ("Unterminated string starting at").data
      | e :: t2 =>
        if e = 'u' then
          match t2 with
          | a :: b :: c2 :: d :: t3 =>
            match hexVal a, hexVal b, hexVal c2, hexVal d with
            | some ha, some hb, some hc, some hd =>
              let code := ((ha * 16 + hb) * 16 + hc) * 16 + hd
              match parseStrLit fuel t3 with
              | .ok (s, rest) => .ok (codeToChar code :: s, rest)
              | .error m => .error m
            | _, _, _, _ => .error ("Invalid uXXXX escape").data
          | _ => .error ("Invalid uXXXX escape").data
        else
          let dec : Option Char :=
            if e = '"' then some '"'
            else if e = '\\' then some '\\'
            else if e = '/' then some '/'
            else if e = 'b' then some '\x08'
            else if e = 'f' then some '\x0c'
            else if e = 'n' then some '\n'
            else if e = 'r' then some '\r'
            else if e = 't' then some '\t'
            else none
          match dec with
          | some ce =>
            match parseStrLit fuel t2 with
            | .ok (s, rest) => .ok (ce :: s, rest)
            | .error m => .error m
          | none => .error ("Invalid escape").data
    else if c.toNat < 32 then .error ("Invalid control character").data
    else
      match parseStrLit fuel t with
      | .ok (s, rest) => .ok (c :: s, rest)
      | .error m => .error m

def natOfDigits (ds : Str) : Nat :=
  ds.foldl (fun a c => a * 10 + (c.toNat - 48)) 0

/-- Number parser, starting at a `-` or digit.  Grammar as in the
stdlib's `NUMBER_RE`: `-?(0|[1-9][0-9]*)(\.[0-9]+)?([eE][+-]?[0-9]+)?`,
each optional group taken greedily or not at all, plus `-Infinity`.
All variants decode to a rational. -/
def parseNum (s : Str) : Except Str (Json × Str) :=
  let core : Str → Bool → Except Str (Json × Str) := fun rest neg =>
    let intPart : Except Str (Str × Str) :=
      match rest with
      | '0' :: r2 => .ok (['0'], r2)
      | d :: _ =>
        if d.isDigit then .ok (rest.takeWhile Char.isDigit, rest.dropWhile Char.isDigit)
        else .error ("Expecting value").data
      | [] => .error ("Expecting value").data
    match intPart with
    | .error m => .error m
    | .ok (ids, afterInt) =>
      let fracPart : Str × Str :=
        match afterInt with
        | '.' :: r =>
          match r with
          | d :: _ =>
            if d.isDigit then (r.takeWhile Char.isDigit, r.dropWhile Char.isDigit)
            else ([], afterInt)
          | [] => ([], afterInt)
        | _ => ([], afterInt)
      let fds := fracPart.1
      let afterFrac := if fds = [] then afterInt else fracPart.2
      let expPart : Option Int × Str :=
        match afterFrac with
        | e :: r =>
          if e = 'e' ∨ e = 'E' then
            let signAndDigits : Bool × Str :=
              match r with
              | '-' :: r2 => (true, r2)
              | '+' :: r2 => (false, r2)
              | _ => (false, r)
            let eds := signAndDigits.2.takeWhile Char.isDigit
            if eds = [] then (none, afterFrac)
            else
              (some (if signAndDigits.1 then -(natOfDigits eds : Int) else (natOfDigits eds : Int)),
               signAndDigits.2.dropWhile Char.isDigit)
          else (none, afterFrac)
        | [] => (none, afterFrac)
      let mag : ℚ :=
        (natOfDigits ids : ℚ) + (natOfDigits fds : ℚ) / ((10 : ℚ) ^ fds.length)
      let scaled : ℚ :=
        match expPart.1 with
        | some ex => mag * (10 : ℚ) ^ ex
        | none => mag
      .ok (.num (if neg then -scaled else scaled), expPart.2)
  match s with
  | '-' :: r => core r true
  | _ => core s false

mutual

/-- JSON value parser at a non-whitespace position. -/
def parseVal : Nat → Str → Except Str (Json × Str)
  | 0, _ => .error ("Expecting value").data
  | _ + 1, [] => .error ("Expecting value").data
  | fuel + 1, c :: t =>
    if c = '\x7b' then parseObjBody fuel (skipWs t)
    else if c = '[' then parseArrBody fuel (skipWs t)
    else if c = '"' then
      match parseStrLit fuel t with
      | .ok (s, rest) => .ok (.str s, rest)
      | .error m => .error m
    else if ("true").data.isPrefixOf (c :: t) then .ok (.bool true, t.drop 3)
    else if ("false").data.isPrefixOf (c :: t) then .ok (.bool false, t.drop 4)
    else if ("null").data.isPrefixOf (c :: t) then .ok (.null, t.drop 3)
    else if ("NaN").data.isPrefixOf (c :: t) then .ok (.nanVal, t.drop 2)
    else if ("Infinity").data.isPrefixOf (c :: t) then .ok (.infVal false, t.drop 7)
    else if c = '-' && ("Infinity").data.isPrefixOf t then .ok (.infVal true, t.drop 8)
    else if c = '-' || c.isDigit then parseNum (c :: t)
    else .error ("Expecting value").data

/-- Object body, after the opening brace and whitespace. -/
def parseObjBody : Nat → Str → Except Str (Json × Str)
  | 0, _ => .error ("Expecting property name enclosed in double quotes").data
  | fuel + 1, s =>
    match s with
    | '\x7d' :: rest => .ok (.obj [], rest)
    | _ =>
      match parseMembers fuel s with
      | .ok (ms, rest) => .ok (.obj ms, rest)
      | .error m => .error m

/-- One or more `"key": value` members, at a position expecting a
property name; consumes the closing brace. -/
def parseMembers : Nat → Str → Except Str (List (Str × Json) × Str)
  | 0, _ => .error ("Expecting property name enclosed in double quotes").data
  | fuel + 1, s =>
    match s with
    | '"' :: t =>
      match parseStrLit fuel t with
      | .error m => .error m
      | .ok (k, r1) =>
        match skipWs r1 with
        | ':' :: r2 =>
          match parseVal fuel (skipWs r2) with
          | .error m => .error m
          | .ok (v, r3) =>
            match skipWs r3 with
            | ',' :: r4 =>
              match parseMembers fuel (skipWs r4) with
              | .ok (ms, r5) => .ok ((k, v) :: ms, r5)
              | .error m => .error m
            | '\x7d' :: r4 => .ok ([(k, v)], r4)
            | _ => .error ("Expecting comma delimiter").data
        | _ => .error ("Expecting colon delimiter").data
    | _ => .error ("Expecting property name enclosed in double quotes").data

/-- Array body, after the opening bracket and whitespace. -/
def parseArrBody : Nat → Str → Except Str (Json × Str)
  | 0, _ => .error ("Expecting value").data
  | fuel + 1, s =>
    match s with
    | ']' :: rest => .ok (.arr [], rest)
    | _ =>
      match parseItems fuel s with
      | .ok (xs, rest) => .ok (.arr xs, rest)
      | .error m => .error m

/-- One or more array elements; consumes the closing bracket. -/
def parseItems : Nat → Str → Except Str (List Json × Str)
  | 0, _ => .error ("Expecting value").data
  | fuel + 1, s =>
    match parseVal fuel s with
    | .error m => .error m
    | .ok (v, r1) =>
      match skipWs r1 with
      | ',' :: r2 =>
        match parseItems fuel (skipWs r2) with
        | .ok (xs, r3) => .ok (v :: xs, r3)
        | .error m => .error m
      | ']' :: r2 => .ok ([v], r2)
      | _ => .error ("Expecting comma delimiter").data

end

/-- Python `json.loads(s)`.  The error carries the (position-free)
`JSONDecodeError` message. -/
def jsonLoads (s : Str) : Except Str Json :=
  match parseVal (2 * s.length + 16) (skipWs s) with
  | .error m => .error m
  | .ok (v, rest) => if skipWs rest = [] then .ok v else .error ("Extra data").data

/-! ### Serialisation (`json.dumps(·, indent=2)`) -/

def hexDigit (n : Nat) : Char :=
  if n < 10 then Char.ofNat (48 + n) else Char.ofNat (87 + (n - 10))

def uEscape4 (n : Nat) : Str :=
  '\\' :: 'u' :: [hexDigit (n / 4096 % 16), hexDigit (n / 256 % 16),
                  hexDigit (n / 16 % 16), hexDigit (n % 16)]

/-- Escaping of one character as `json.dumps` does (`ensure_ascii=True`: every
non-ASCII character becomes `\uXXXX` escapes, astral characters a
surrogate pair). -/
def escapeJsonChar (c : Char) : Str :=
  if c = '"' then '\\' :: ['"']
  else if c = '\\' then '\\' :: ['\\']
  else if c = '\n' then '\\' :: ['n']
  else if c = '\t' then '\\' :: ['t']
  else if c = '\r' then '\\' :: ['r']
  else if c = '\x08' then '\\' :: ['b']
  else if c = '\x0c' then '\\' :: ['f']
  else if c.toNat < 32 || 126 < c.toNat then
    if c.toNat < 65536 then uEscape4 c.toNat
    else
      uEscape4 (55296 + (c.toNat - 65536) / 1024) ++ uEscape4 (56320 + (c.toNat - 65536) % 1024)
  else [c]

def dumpsStrBody (s : Str) : Str := (s.map escapeJsonChar).flatten

def indentSp (lvl : Nat) : Str := List.replicate (2 * lvl) ' '

mutual

/-- Serialisation `json.dumps(x, indent=2)` at nesting level `lvl`.  Non-integral
floats (never serialised by any claim) render as numerator/denominator
rather than Python float `repr`. -/
def dumpsVal : Json → Nat → Str
  | .null, _ => ("null").data
  | .bool b, _ => (if b then "true" else "false").data
  | .num q, _ => numToStr q
  | .nanVal, _ => ("NaN").data
  | .infVal neg, _ => (if neg then "-Infinity" else "Infinity").data
  | .str s, _ => '"' :: (dumpsStrBody s ++ ['"'])
  | .arr [], _ => ("[]").data
  | .arr (x :: xs), lvl =>
    '[' :: '\n' :: (indentSp (lvl + 1) ++ dumpsElems (x :: xs) (lvl + 1) ++
      '\n' :: (indentSp lvl ++ [']']))
  | .obj [], _ => ("\x7b\x7d").data
  | .obj (f :: fs), lvl =>
    '\x7b' :: '\n' :: (indentSp (lvl + 1) ++ dumpsFields (f :: fs) (lvl + 1) ++
      '\n' :: (indentSp lvl ++ ['\x7d']))

def dumpsElems : List Json → Nat → Str
  | [], _ => []
  | [x], lvl => dumpsVal x lvl
  | x :: y :: xs, lvl =>
    dumpsVal x lvl ++ ',' :: '\n' :: (indentSp lvl ++ dumpsElems (y :: xs) lvl)

def dumpsFields : List (Str × Json) → Nat → Str
  | [], _ => []
  | [(k, v)], lvl => '"' :: (dumpsStrBody k ++ '"' :: ':' :: ' ' :: dumpsVal v lvl)
  | (k, v) :: f :: fs, lvl =>
    '"' :: (dumpsStrBody k ++ '"' :: ':' :: ' ' :: dumpsVal v lvl) ++
      ',' :: '\n' :: (indentSp lvl ++ dumpsFields (f :: fs) lvl)

end

def jsonDumps2 (j : Json) : Str := dumpsVal j 0

/-! ### Fence stripping (shared by `natural_language_search` in
`OM_api.py` lines 169–176 and `parse_natural_language_query` in
`local-api-OM.py` lines 119–125) -/

/-- The reply clean-up applied before `json.loads`:
`json_str = response.strip()`; if it starts with a triple backtick,
drop the first and last lines; if the remainder starts with a literal
`json` tag, drop those four characters and strip again. -/
def stripFences (response : Str) : Str :=
  let j0 := pyStrip response
  let j1 :=
    if ("```").data.isPrefixOf j0 then joinNl (((splitNl j0).drop 1).dropLast)
    else j0
  if ("json").data.isPrefixOf j1 then pyStrip (j1.drop 4) else j1

/-! ### Network oracles

Each outbound HTTP call's observable outcome is a datum: a transport
failure (any `requests.RequestException`, which `raise_for_status`
also produces for non-2xx), a 2xx response whose body fails JSON
decoding (`response.json()` then raises `json.JSONDecodeError`), or a
decoded JSON body. -/

inductive HttpOutcome where
  | transportError (e : Str)
  | badJsonBody (e : Str)
  | success (body : Json)

inductive SearchOutcome where
  | transportError (e : Str)
  | badJsonBody (e : Str)
  | success (body : Json)

/-! ### Search client (`OpenMeasuresAPI.search`, `OM_api.py` 30–78 /
`local-api-OM.py` 39–71; both copies are line-for-line identical here
apart from a debug print) -/

/-- The outbound query-parameter dict built by `search` (`params = ...`
plus the conditional `since` / `until` insertions).  `sortdesc` holds
the stringified boolean; `since` / `until` are present exactly when the
argument is truthy (so an empty string is omitted, like `None`). -/
structure SearchParams where
  term : Str
  site : Str
  limit : Int
  querytype : Str
  sortdesc : Str
  since : Option Str
  untilDate : Option Str
deriving DecidableEq

def searchSentParams (term site : Str) (limit : Int) (since untilDate : Option Str)
    (querytype : Str) (sortdesc : Bool) : SearchParams :=
  { term := term
    site := site
    limit := min limit 10000
    querytype := querytype
    sortdesc := (if sortdesc then "true" else "false").data
    since := match since with | some s => if s.isEmpty then none else some s | none => none
    untilDate := match untilDate with | some s => if s.isEmpty then none else some s | none => none }

/-- The `try`/`except` around the GET: a `RequestException` becomes the
`{"error": str(e)}` envelope; a body that is not JSON raises
`JSONDecodeError` out of `search`; otherwise the decoded body is
returned unchanged. -/
def searchEnvelope : SearchOutcome → Py Json
  | .transportError e => .ok (.obj [(("error").data, .str e)])
  | .badJsonBody e => .error ⟨.jsonDecode, e⟩
  | .success body => .ok body

/-- Method `OpenMeasuresAPI.search`: builds the params dict, performs one GET
(the oracle `net` receives exactly the dict that is dispatched), and
wraps the outcome. -/
def search (term site : Str) (limit : Int) (since untilDate : Option Str)
    (querytype : Str) (sortdesc : Bool) (net : SearchParams → SearchOutcome) : Py Json :=
  searchEnvelope (net (searchSentParams term site limit since untilDate querytype sortdesc))

/-! ### Completion client (`OpenMeasuresAPI.call_claude`,
`OM_api.py` 102–135 / `local-api-OM.py` 73–98, identical) -/

/-- Python `x[0]`. -/
def pyIndexZero (j : Json) : Py Json :=
  match j with
  | .arr [] => .error ⟨.indexError, ("list index out of range").data⟩
  | .arr (x :: _) => .ok x
  | .str [] => .error ⟨.indexError, ("string index out of range").data⟩
  | .str (c :: _) => .ok (.str [c])
  | .obj _ => .error ⟨.keyError, ("0").data⟩
  | _ => .error ⟨.typeError, ("object is not subscriptable").data⟩

/-- Method `call_claude`: an unset key returns the fixed error string without
any network call; a `RequestException` is caught and returned as the
`"Error calling Claude API: ..."` string; on a decoded 2xx body the
function returns `result["content"][0]["text"]`, whose item accesses
raise (uncaught) when the body lacks that shape.  The prompt argument
does not influence any modelled behaviour and is elided. -/
def callClaude (key : Str) (out : HttpOutcome) : Py Json :=
  if key = [] then .ok (.str ("Error: Claude API key not set").data)
  else
    match out with
    | .transportError e => .ok (.str (("Error calling Claude API: ").data ++ e))
    | .badJsonBody e => .error ⟨.jsonDecode, e⟩
    | .success body => do
      let content ← pyGetItem body ("content").data
      let first ← pyIndexZero content
      pyGetItem first ("text").data

/-! ### Server-side query interpreter
(`OpenMeasuresAPI.parse_natural_language_query`,
`local-api-OM.py` 100–129) -/

/-- Method `parse_natural_language_query`: one completion call (outside the
`try`, so its exceptions propagate), fence stripping, then
`json.loads`; only `JSONDecodeError` is caught, yielding
`{"error": f"Failed to parse query: {e}"}` — without the raw reply. -/
def parseNaturalLanguageQuery (key : Str) (out : HttpOutcome) : Py Json := do
  let resp ← callClaude key out
  match resp with
  | .str s =>
    match jsonLoads (stripFences s) with
    | .ok v => .ok v
    | .error e =>
      .ok (.obj [(("error").data, .str (("Failed to parse query: ").data ++ e))])
  | _ => .error ⟨.attributeError, ("object has no attribute strip").data⟩

/-! ### Result formatting for summaries
(`OpenMeasuresAPI._format_results_for_summary`, `OM_api.py` 244–255) -/

/-- Python `None`-or-value as a JSON-ish value for `or` chains
(`None` and JSON `null` are equally falsy and never otherwise
distinguished by this code). -/
def optJson : Option Json → Json
  | none => .null
  | some j => j

/-- One iteration of the formatting loop: field extraction with the
`or` chain, the 500-character slice, and the f-string block. -/
def hitSummaryBlock (i : Nat) (hit : Json) : Py Str := do
  let source ← pyGetD hit ("_source").data (.obj [])
  let m ← pyGetNone source ("message").data
  let tx ← pyGetNone source ("txt").data
  let ct ← pyGetNone source ("content").data
  let text ← pySlice (pyOr (pyOr (pyOr (optJson m) (optJson tx)) (optJson ct)) (.str [])) 500
  let uinf ← pyGetD source ("uinf").data (.obj [])
  let username ← pyGetD uinf ("username").data (.str ("Unknown").data)
  let timestamp ← pyGetD source ("timestamp").data (.str ("N/A").data)
  .ok (("Result ").data ++ intToStr i ++ (":\nUser: ").data ++ pyStrJson username ++
       ("\nTime: ").data ++ pyStrJson timestamp ++ ("\nText: ").data ++ pyStrJson text ++ ['\n'])

def summaryBlocks : List Json → Nat → Py (List Str)
  | [], _ => .ok []
  | h :: t, i => do
    let b ← hitSummaryBlock i h
    let rest ← summaryBlocks t (i + 1)
    .ok (b :: rest)

/-- Method `_format_results_for_summary(hits)`: `enumerate(hits[:20], 1)` over
the formatting loop, then `"\n".join`. -/
def formatResultsForSummary (hits : List Json) : Py Str := do
  let bs ← summaryBlocks (hits.take 20) 1
  .ok (joinNl bs)

/-! ### Raw-result display truncation (`OM_api.py` `main`, line 466,
and the identical `ai_search_mode` line 352) -/

/-- The display line `  Text: <text[:300]><ellipsis if len(text) > 300>`. -/
def displayTextLine (text : Str) : Str :=
  ("  Text: ").data ++ text.take 300 ++ (if 300 < text.length then ("...").data else [])

/-! ### CLI natural-language pipeline
(`OpenMeasuresAPI.natural_language_search`, `OM_api.py` 137–242) -/

/-- The search step shared by the CLI pipeline and the HTTP route: the
four `params.get(...)` reads (raising `AttributeError` on non-dict
params), the `min(limit, 10000)` clamp inside `search` (raising
`TypeError` on a non-numeric limit, before any dispatch), then the
search envelope for the call's oracle outcome. -/
def dispatchSearch (params : Json) (searchOut : SearchOutcome) : Py Json := do
  let _ ← pyGetD params ("term").data (.str [])
  let _ ← pyGetD params ("site").data (.str ("telegram").data)
  let lim ← pyGetD params ("limit").data (.num 20)
  let _ ← pyGetD params ("querytype").data (.str ("content").data)
  let _ ← pyMin lim (.num 10000)
  searchEnvelope searchOut

/-- The body of `natural_language_search`'s `try` block, given the
completion reply `resp`.  A `JSONDecodeError` from `json.loads` is
handled where it arises (the message carries the error and the raw
reply); other raises propagate to the `except` clauses. -/
def nlsTryBody (resp : Json) (searchOut : SearchOutcome) (key : Str)
    (summaryOut : HttpOutcome) : Py Json :=
  match resp with
  | .str s =>
    match jsonLoads (stripFences s) with
    | .error e =>
      .ok (.obj [(("error").data,
        .str (("Failed to parse Claude\x27s response: ").data ++ e ++ ("\nResponse: ").data ++ s))])
    | .ok params => do
      let results ← dispatchSearch params searchOut
      let hasErr ← pyContains results ("error").data
      if hasErr then do
        let ev ← pyGetItem results ("error").data
        .ok (.obj [(("error").data, ev)])
      else do
        let hitsOuter ← pyGetD results ("hits").data (.obj [])
        let hits ← pyGetD hitsOuter ("hits").data (.arr [])
        if !(pyTruthy hits) then
          .ok (.obj [(("params").data, params), (("results").data, .arr []),
                     (("summary").data, .str ("No results found for this query.").data)])
        else do
          let hits20 ← pySlice hits 20
          match hits20 with
          | .arr hl => do
            let _ ← formatResultsForSummary hl
            let summary ← callClaude key summaryOut
            let n ← pyLen hits
            .ok (.obj [(("params").data, params), (("results").data, hits),
                       (("summary").data, summary), (("total_found").data, .num (n : ℚ))])
          | _ => .error ⟨.attributeError, ("object has no attribute get").data⟩
  | _ => .error ⟨.attributeError, ("object has no attribute strip").data⟩

/-- Method `natural_language_search`: key guard, completion call (outside the
`try`), then the `try` body with its two `except` clauses —
`JSONDecodeError` yields the parse-failure dict carrying the raw reply,
any other exception the generic error dict. -/
def naturalLanguageSearch (key : Str) (parseOut : HttpOutcome) (searchOut : SearchOutcome)
    (summaryOut : HttpOutcome) : Py Json :=
  if key = [] then .ok (.obj [(("error").data, .str ("Claude API key not set").data)])
  else
    match callClaude key parseOut with
    | .error e => .error e
    | .ok resp =>
      match nlsTryBody resp searchOut key summaryOut with
      | .ok v => .ok v
      | .error exc =>
        if exc.kind = .jsonDecode then
          .ok (.obj [(("error").data,
            .str (("Failed to parse Claude\x27s response: ").data ++ exc.msg ++
                  ("\nResponse: ").data ++ pyStrJson resp))])
        else
          .ok (.obj [(("error").data,
            .str (("Error during natural language search: ").data ++ exc.msg))])

/-! ### The `POST /search` route (`local-api-OM.py` 140–270) -/

/-- The query extracted from the request body (`None` survives as
`none`): the `query` field if the key is present, else the last
message's `content` with the `"]:"` actor-envelope stripping. -/
def stripActor (q : Json) : Json :=
  match q with
  | .str s =>
    if containsSub s ("]:").data then .str (pyStrip (afterFirst s ("]:").data)) else .str s
  | other => other

def extractQuery (data : Json) : Py (Option Json) := do
  let hasQ ← pyContains data ("query").data
  if hasQ then do
    let v ← pyGetItem data ("query").data
    .ok (some v)
  else do
    let hasM ← pyContains data ("messages").data
    if hasM then do
      let msgs ← pyGetItem data ("messages").data
      match msgs with
      | .arr l =>
        match l.getLast? with
        | some last =>
          match last with
          | .obj _ =>
            match Json.lookup last ("content").data with
            | some c => .ok (some (stripActor c))
            | none => .ok none
          | _ => .ok none
        | none => .ok none
      | _ => .ok none
    else .ok none

/-- The `created` field: `int(request.headers.get(header, zero)) or
1234567890`.  A missing header defaults to `'0'`, whose falsy `int` is
replaced by the constant; an unparseable header raises `ValueError`. -/
def createdField (xReqTime : Option Str) : Py Int :=
  let raw := match xReqTime with | none => ("0").data | some h => h
  match pyIntOfStr raw with
  | none => .error ⟨.valueError, ("invalid literal for int with base 10").data⟩
  | some v => .ok (if v = 0 then 1234567890 else v)

/-- The `api_request_url` string (line 226): the reconstructed GET URL from the
parsed params, `None` rendering as `"None"`. -/
def apiRequestUrl (params : Json) : Py Str := do
  let t ← pyGetNone params ("term").data
  let s ← pyGetNone params ("site").data
  let l ← pyGetNone params ("limit").data
  let q ← pyGetNone params ("querytype").data
  .ok (("https://api.openmeasures.io/content?term=").data ++ pyStrOpt t ++
       ("&site=").data ++ pyStrOpt s ++ ("&limit=").data ++ pyStrOpt l ++
       ("&querytype=").data ++ pyStrOpt q)

/-- The four-line `**Search Parameters:**` block (emitted identically
at lines 233–237 and 242–246), up to and including the newline after
the Limit line. -/
def paramsBlock (params : Json) : Py Str := do
  let t ← pyGetNone params ("term").data
  let s ← pyGetNone params ("site").data
  let q ← pyGetNone params ("querytype").data
  let l ← pyGetNone params ("limit").data
  .ok (("**Search Parameters:**\n- Term: `").data ++ pyStrOpt t ++
       ("`\n- Platform: `").data ++ pyStrOpt s ++
       ("`\n- Query Type: `").data ++ pyStrOpt q ++
       ("`\n- Limit: `").data ++ pyStrOpt l ++ ("`\n").data)

/-- Chat-mode assistant text for a failed search (lines 228–230). -/
def errorContent (errVal : Json) (url : Str) : Str :=
  ("Error searching Open Measures: ").data ++ pyStrJson errVal ++
  ("\n\n**API Request Sent:**\n```\n").data ++ url ++ ("\n```").data

/-- Chat-mode assistant text when the search returned no hits
(lines 231–238). -/
def noResultsContent (queryVal : Json) (pb : Str) (url : Str) : Str :=
  ("❌ No results found for: ").data ++ pyStrJson queryVal ++ ("\n\n").data ++ pb ++ ['\n'] ++
  ("**API Request Sent:**\n```\n").data ++ url ++ ("\n```").data

/-- Chat-mode assistant text for a successful search with hits
(lines 239–252). -/
def successContent (pb : Str) (nHits : Nat) (totalHits : Json) (url : Str)
    (results : Json) : Str :=
  ("✅ Open Measures Search Complete\n\n").data ++ pb ++
  ("- Results Received: `").data ++ intToStr nHits ++
  ("`\n- Total Available: `").data ++ pyStrJson totalHits ++
  ("`\n\n**API Request Sent:**\n```\n").data ++ url ++
  ("\n```\n\n**Raw JSON Results:**\n```json\n").data ++ jsonDumps2 results ++ ("\n```").data

/-- The chat-completion response object (lines 254–267). -/
def chatCompletion (modelVal : Json) (created : Int) (content : Str) : Json :=
  .obj [(("id").data, .str ("chatcmpl-openmeasures").data),
        (("object").data, .str ("chat.completion").data),
        (("created").data, .num (created : ℚ)),
        (("model").data, modelVal),
        (("choices").data, .arr [
          .obj [(("index").data, .num 0),
                (("message").data, .obj [(("role").data, .str ("assistant").data),
                                         (("content").data, .str content)]),
                (("finish_reason").data, .str ("stop").data)]])]

/-- The interpretation-failure chat object (lines 198–206). -/
def parseErrorChat (errVal : Json) : Json :=
  .obj [(("choices").data, .arr [
    .obj [(("message").data, .obj [(("role").data, .str ("assistant").data),
            (("content").data, .str (("Error parsing query: ").data ++ pyStrJson errVal))]),
          (("finish_reason").data, .str ("stop").data)]])]

/-- What the route hands back to Flask: a JSON response with a status,
or an exception that escaped the handler (Flask then produces a 500
error page, not a handler response). -/
inductive RouteResponse where
  | resp (status : Nat) (body : Json)
  | raised (e : PyExc)

def statusOf : RouteResponse → Option Nat
  | .resp s _ => some s
  | .raised _ => none

def errObj (m : Str) : Json := .obj [(("error").data, .str m)]

/-- The route body after the `if not data` guard. -/
def routeCore (data : Json) (key : Str) (claudeOut : HttpOutcome)
    (searchOut : SearchOutcome) (xReqTime : Option Str) : Py (Nat × Json) := do
  let hasMsgs ← pyContains data ("messages").data
  let isChat ← if hasMsgs then pyContains data ("model").data else pure false
  let q? ← extractQuery data
  match q? with
  | none =>
    .ok (400, errObj (("Missing query. Provide either 'query' field or 'messages' array").data))
  | some q =>
    if !(pyTruthy q) then
      .ok (400, errObj (("Missing query. Provide either 'query' field or 'messages' array").data))
    else if key = [] || key = ("your-claude-api-key-here").data then
      .ok (500,
        errObj (("Claude API key not configured. Please set CLAUDE_API_KEY in the code.").data))
    else do
      let params ← parseNaturalLanguageQuery key claudeOut
      let hasErr ← pyContains params ("error").data
      if hasErr then
        if isChat then do
          let ev ← pyGetItem params ("error").data
          .ok (200, parseErrorChat ev)
        else do
          let ev ← pyGetItem params ("error").data
          .ok (400, .obj [(("error").data, ev), (("stage").data, .str ("parsing").data)])
      else do
        let results ← dispatchSearch params searchOut
        if isChat then do
          let hitsOuter ← pyGetD results ("hits").data (.obj [])
          let hits ← pyGetD hitsOuter ("hits").data (.arr [])
          let totalOuter ← pyGetD results ("hits").data (.obj [])
          let total0 ← pyGetD totalOuter ("total").data (.obj [])
          let totalHits ←
            (match total0 with
             | .obj _ => pyGetD total0 ("value").data (.num 0)
             | t => pure t)
          let url ← apiRequestUrl params
          let hasRErr ← pyContains results ("error").data
          let content ←
            if hasRErr then do
              let ev ← pyGetItem results ("error").data
              pure (errorContent ev url)
            else if !(pyTruthy hits) then do
              let pb ← paramsBlock params
              pure (noResultsContent q pb url)
            else do
              let pb ← paramsBlock params
              let n ← pyLen hits
              pure (successContent pb n totalHits url results)
          let created ← createdField xReqTime
          let modelVal ← pyGetD data ("model").data (.str ("openai/gpt-oss-20b").data)
          .ok (200, chatCompletion modelVal created content)
        else
          .ok (200, results)

/-- The full `POST /search` handler: `request.get_json()` as an
optional body (`none` for a missing/null body), the falsy-body guard,
then `routeCore`; an uncaught exception surfaces as `raised`. -/
def searchRoute (dataOpt : Option Json) (key : Str) (claudeOut : HttpOutcome)
    (searchOut : SearchOutcome) (xReqTime : Option Str) : RouteResponse :=
  match dataOpt with
  | none => .resp 400 (errObj (("Missing request body").data))
  | some data =>
    if !(pyTruthy data) then .resp 400 (errObj (("Missing request body").data))
    else
      match routeCore data key claudeOut searchOut xReqTime with
      | .ok (s, b) => .resp s b
      | .error e => .raised e

/-! ### Concrete inputs shared by witnesses and counterexamples -/

/-- A completion reply `s` wrapped in a fenced code block whose first
line is the triple-backtick marker with the `json` tag and whose last
line is the closing triple-backtick marker. -/
def fenceWrapJson (s : Str) : Str := ("```json\n").data ++ s ++ ("\n```").data

/-- A well-shaped completion-API response body whose first content
block carries the text `t`. -/
def claudeBody (t : Str) : Json :=
  .obj [(("content").data, .arr [.obj [(("text").data, .str t)]])]

/-- A single user message in the chat request format. -/
def userMsg (content : Str) : Json :=
  .obj [(("role").data, .str ("user").data), (("content").data, .str content)]

/-- A chat-format request body: a one-message `messages` array plus a
`model` field. -/
def chatReq (content modelName : Str) : Json :=
  .obj [(("messages").data, .arr [userMsg content]),
        (("model").data, .str modelName)]

/-! ## Helper lemmas -/

set_option maxRecDepth 8192

theorem py_bind_ok {ε α β : Type} (a : α) (f : α → Except ε β) :
    ((Except.ok a : Except ε α) >>= f) = f a := rfl

theorem py_bind_error {ε α β : Type} (er : ε) (f : α → Except ε β) :
    ((Except.error er : Except ε α) >>= f) = Except.error er := rfl

theorem dropWhile_append_last (p : Char → Bool) (l : Str) (c : Char) (h : p c = false) :
    (l ++ [c]).dropWhile p = l.dropWhile p ++ [c] := by
  induction l with
  | nil => simp [List.dropWhile, h]
  | cons x t ih =>
    by_cases hx : p x
    · simp [List.dropWhile_cons, hx, ih]
    · simp [List.dropWhile_cons, hx]

theorem pyStrip_cons (c : Char) (t : Str) (h : isPyWs c = false) :
    pyStrip (c :: t) = c :: (t.reverse.dropWhile isPyWs).reverse := by
  have h1 : (c :: t).dropWhile isPyWs = c :: t := by simp [List.dropWhile_cons, h]
  rw [pyStrip, h1, List.reverse_cons, dropWhile_append_last _ _ _ h, List.reverse_append]
  simp

/-- Fence stripping leaves a reply starting with capital `E` (as every
transport-error string does) alone apart from right-trimming: it is not
a fence and not a `json` tag. -/
theorem stripFences_eAscii (r : Str) :
    stripFences ('E' :: r) = 'E' :: (r.reverse.dropWhile isPyWs).reverse := by
  have h1 : pyStrip ('E' :: r) = 'E' :: (r.reverse.dropWhile isPyWs).reverse :=
    pyStrip_cons _ _ (by decide)
  have h2 : ("```").data.isPrefixOf ('E' :: (r.reverse.dropWhile isPyWs).reverse) = false := rfl
  have h3 : ("json").data.isPrefixOf ('E' :: (r.reverse.dropWhile isPyWs).reverse) = false := rfl
  rw [stripFences, h1]
  simp [h2, h3]

/-- No JSON document starts with a capital `E`, whatever follows. -/
theorem jsonLoads_cons_E (r : Str) :
    jsonLoads ('E' :: r) = .error (("Expecting value").data) := rfl

theorem splitNl_ne_nil (s : Str) : splitNl s ≠ [] := by
  cases s with
  | nil => simp [splitNl]
  | cons c t => by_cases h : c = '\n' <;> simp [splitNl, h]

theorem splitNl_append_newline (a b : Str) :
    splitNl (a ++ '\n' :: b) = splitNl a ++ splitNl b := by
  induction a with
  | nil => simp [splitNl]
  | cons c t ih =>
    by_cases h : c = '\n'
    · subst h
      simp [splitNl, ih]
    · rcases hsp : splitNl t with _ | ⟨x, xs⟩
      · exact absurd hsp (splitNl_ne_nil t)
      · simp [splitNl, h, ih, hsp]

theorem joinNl_splitNl (s : Str) : joinNl (splitNl s) = s := by
  induction s with
  | nil => rfl
  | cons c t ih =>
    rcases hsp : splitNl t with _ | ⟨x, xs⟩
    · exact absurd hsp (splitNl_ne_nil t)
    · by_cases h : c = '\n'
      · subst h
        rw [show splitNl ('\n' :: t) = [] :: splitNl t by simp [splitNl], hsp]
        rw [hsp] at ih
        show [] ++ '\n' :: joinNl (x :: xs) = '\n' :: t
        rw [List.nil_append, ih]
      · rw [show splitNl (c :: t) = (c :: (splitNl t).headI) :: (splitNl t).tail by
          simp [splitNl, h], hsp]
        rw [hsp] at ih
        cases xs with
        | nil =>
          show c :: x = c :: t
          rw [show x = joinNl [x] from rfl, ih]
        | cons y ys =>
          show (c :: x) ++ '\n' :: joinNl (y :: ys) = c :: t
          rw [← ih]
          rfl

theorem trimRight_eq_self (l : Str) (c : Char) (h : isPyWs c = false) :
    ((l ++ [c]).reverse.dropWhile isPyWs).reverse = l ++ [c] := by
  rw [List.reverse_append, List.reverse_singleton, List.singleton_append,
    List.dropWhile_cons, h]
  simp

theorem pyStrip_sandwich (c d : Char) (mid : Str) (hc : isPyWs c = false)
    (hd : isPyWs d = false) :
    pyStrip (c :: (mid ++ [d])) = c :: (mid ++ [d]) := by
  rw [pyStrip_cons _ _ hc, trimRight_eq_self mid d hd]

theorem pyStrip_wrap (s : Str) : pyStrip (fenceWrapJson s) = fenceWrapJson s := by
  have h : fenceWrapJson s
      = '`' :: ((['`', '`', 'j', 's', 'o', 'n', '\n'] ++ (s ++ ['\n', '`', '`'])) ++ ['`']) := by
    show '`' :: '`' :: '`' :: 'j' :: 's' :: 'o' :: 'n' :: '\n' :: (s ++ ['\n', '`', '`', '`']) = _
    simp [List.append_assoc]
  rw [h, pyStrip_sandwich _ _ _ (by decide) (by decide)]

theorem splitNl_wrap (s : Str) :
    splitNl (fenceWrapJson s)
      = ['`', '`', '`', 'j', 's', 'o', 'n'] :: (splitNl s ++ [['`', '`', '`']]) := by
  have e1 : fenceWrapJson s
      = ['`', '`', '`', 'j', 's', 'o', 'n'] ++ '\n' :: (s ++ '\n' :: ['`', '`', '`']) := rfl
  rw [e1, splitNl_append_newline, splitNl_append_newline]
  rfl

/-- Fence stripping of a wrapped reply recovers the wrapped text
exactly, provided the text does not itself begin with a `json` tag. -/
theorem stripFences_wrap (s : Str) (hj : ("json").data.isPrefixOf s = false) :
    stripFences (fenceWrapJson s) = s := by
  have hc1 : ("```").data.isPrefixOf (fenceWrapJson s) = true := rfl
  rw [stripFences, pyStrip_wrap, hc1]
  simp only [if_true, reduceIte]
  rw [splitNl_wrap, List.drop_succ_cons, List.drop_zero, List.dropLast_concat,
    joinNl_splitNl]
  simp [hj]

/-- Fence stripping leaves brace-delimited text (a serialised JSON
object) unchanged. -/
theorem stripFences_brace (mid : Str) :
    stripFences ('{' :: (mid ++ ['}'])) = '{' :: (mid ++ ['}']) := by
  have hc1 : ("```").data.isPrefixOf ('{' :: (mid ++ ['}'])) = false := rfl
  have hc2 : ("json").data.isPrefixOf ('{' :: (mid ++ ['}'])) = false := rfl
  rw [stripFences, pyStrip_sandwich _ _ _ (by decide) (by decide)]
  simp [hc1, hc2]

/-! ## Claims -/

/-- C1, counterexample: `search` called with limit 0 places 0 — not a
value in `[1, 10000]` — in the outbound query parameters; there is no
lower clamp. -/
theorem c1_counterexample :
    (searchSentParams (("x").data) (("telegram").data) 0 none none
        (("content").data) false).limit = 0
    ∧ ¬ (1 ≤ (searchSentParams (("x").data) (("telegram").data) 0 none none
        (("content").data) false).limit) := by
  constructor
  · decide
  · decide

/-- C1, amended: the limit placed in the outbound query parameters is
always `min L 10000` — an upper cap only, applied before dispatch (the
params record is built before the oracle is consulted); consequently
`1 ≤ sent_limit ≤ 10000` and `sent_limit = min L 10000` hold whenever
`L > 0`, but a non-positive `L` is sent unclamped. -/
theorem c1_limit_upper_cap (term site : Str) (L : Int) (since untilDate : Option Str)
    (querytype : Str) (sortdesc : Bool) :
    (searchSentParams term site L since untilDate querytype sortdesc).limit = min L 10000
    ∧ (0 < L →
        1 ≤ (searchSentParams term site L since untilDate querytype sortdesc).limit
        ∧ (searchSentParams term site L since untilDate querytype sortdesc).limit ≤ 10000) := by
  refine ⟨rfl, fun h => ⟨?_, ?_⟩⟩
  · simp only [searchSentParams]
    omega
  · simp only [searchSentParams]
    omega

/-- C1, witness at `L = 7`. -/
theorem c1_limit_upper_cap_witness :
    (searchSentParams (("x").data) (("telegram").data) 7 none none
        (("content").data) false).limit = min 7 10000
    ∧ (1 ≤ (searchSentParams (("x").data) (("telegram").data) 7 none none
          (("content").data) false).limit
       ∧ (searchSentParams (("x").data) (("telegram").data) 7 none none
          (("content").data) false).limit ≤ 10000) :=
  ⟨(c1_limit_upper_cap (("x").data) (("telegram").data) 7 none none
      (("content").data) false).1,
   (c1_limit_upper_cap (("x").data) (("telegram").data) 7 none none
      (("content").data) false).2 (by decide)⟩

/-- C3, counterexample: with the header `X-Request-Time: -5` the
`created` field of the chat-completion response is `-5`, not the
fallback constant `1234567890` the claim requires for a negative
header (`-5` is truthy in Python, so `or` keeps it). -/
theorem c3_counterexample :
    createdField (some (("-5").data)) = .ok (-5) ∧ (-5 : Int) ≠ 1234567890 := by
  constructor
  · decide
  · decide

/-- C3, amended: `created` equals the header value whenever the header
is present and parses as a **nonzero** integer (positive or negative);
it equals the fallback constant 1234567890 when the header is absent or
parses to zero; and when the header is present but not parseable as an
integer the handler raises `ValueError` (so Flask produces a 500, and
no `created` field at all) rather than using the fallback. -/
theorem c3_created_rule (h : Str) (v : Int) :
    createdField none = .ok 1234567890
    ∧ (pyIntOfStr h = some v → v ≠ 0 → createdField (some h) = .ok v)
    ∧ (pyIntOfStr h = some 0 → createdField (some h) = .ok 1234567890)
    ∧ (pyIntOfStr h = none →
        createdField (some h)
          = .error ⟨.valueError, ("invalid literal for int with base 10").data⟩) := by
  refine ⟨by decide, fun h1 h2 => ?_, fun h1 => ?_, fun h1 => ?_⟩
  · simp [createdField, h1, h2]
  · simp [createdField, h1]
  · simp [createdField, h1]

/-- C3, witness at header values `"7"` (kept) and absent (fallback). -/
theorem c3_created_rule_witness :
    createdField none = .ok 1234567890 ∧ createdField (some (("7").data)) = .ok 7 :=
  ⟨(c3_created_rule (("7").data) 7).1,
   (c3_created_rule (("7").data) 7).2.1 (by decide) (by decide)⟩

/-- C4, counterexample: on a completion-API response whose `content`
sequence is empty, `call_claude` raises (an uncaught `IndexError` from
`result["content"][0]`) instead of returning a Failure value. -/
theorem c4_counterexample :
    pyRaises (callClaude (("k").data) (.success (.obj [(("content").data, .arr [])]))) = true := by
  decide

/-- C4, amended: with a configured key, `call_claude` returns the
descriptive error string on transport error, and extracts the first
text block of a well-shaped response; but on an unexpected response
shape it **raises** rather than returning a Failure: `IndexError` on an
empty content sequence and `KeyError` on a missing one. -/
theorem c4_call_claude_shape (key : Str) (hk : key ≠ []) (e t : Str) (tv : Json)
    (rest : List Json) :
    callClaude key (.transportError e) = .ok (.str (("Error calling Claude API: ").data ++ e))
    ∧ callClaude key (.success (claudeBody t)) = .ok (.str t)
    ∧ callClaude key
        (.success (.obj [(("content").data, .arr (.obj [(("text").data, tv)] :: rest))]))
        = .ok tv
    ∧ callClaude key (.success (.obj [(("content").data, .arr [])]))
        = .error ⟨.indexError, ("list index out of range").data⟩
    ∧ callClaude key (.success (.obj []))
        = .error ⟨.keyError, ("content").data⟩ := by
  refine ⟨?_, ?_, ?_, ?_, ?_⟩ <;> (rw [callClaude, if_neg hk]; try rfl)

/-- C4, witness: a configured key with a transport error and with a
well-shaped reply. -/
theorem c4_call_claude_shape_witness :
    callClaude (("k").data) (.transportError (("boom").data))
      = .ok (.str ((("Error calling Claude API: ").data) ++ (("boom").data)))
    ∧ callClaude (("k").data) (.success (claudeBody (("hi").data))) = .ok (.str (("hi").data)) :=
  ⟨(c4_call_claude_shape (("k").data) (by decide) (("boom").data) (("hi").data) .null []).1,
   (c4_call_claude_shape (("k").data) (by decide) (("boom").data) (("hi").data) .null []).2.1⟩

/-- C6, counterexample: in the LLM-summary formatting path a 501-character
hit text is truncated to 500 characters with **no** ellipsis appended —
the formatted block contains no `"..."` at all — contradicting the
claim that both paths append an ellipsis exactly when the original
exceeded the cap. -/
theorem c6_counterexample :
    formatResultsForSummary
        [Json.obj [(("_source").data,
          Json.obj [(("message").data, Json.str (List.replicate 501 'a'))])]]
      = .ok ((("Result 1:\nUser: Unknown\nTime: N/A\nText: ").data
              ++ List.replicate 500 'a' ++ ['\n']))
    ∧ ¬ (("...").data <:+:
        (("Result 1:\nUser: Unknown\nTime: N/A\nText: ").data
          ++ List.replicate 500 'a' ++ ['\n'])) := by
  constructor
  · rfl
  · intro hinf
    have hmem : '.' ∈ (("Result 1:\nUser: Unknown\nTime: N/A\nText: ").data
        ++ List.replicate 500 'a' ++ ['\n']) := hinf.subset (by decide)
    revert hmem
    decide

/-- C6, amended: the LLM-summary path caps hit text at 500 characters
and never appends an ellipsis; the human-display path caps at 300
characters and appends `"..."` exactly when the original exceeded
300. -/
theorem c6_truncation_caps (t : Str) :
    formatResultsForSummary
        [Json.obj [(("_source").data, Json.obj [(("message").data, Json.str t)])]]
      = .ok ((("Result 1:\nUser: Unknown\nTime: N/A\nText: ").data ++ t.take 500 ++ ['\n']))
    ∧ (t.take 500).length ≤ 500
    ∧ (t.length ≤ 300 → displayTextLine t = ("  Text: ").data ++ t)
    ∧ (300 < t.length →
        displayTextLine t = ("  Text: ").data ++ t.take 300 ++ ("...").data
        ∧ (t.take 300).length = 300) := by
  refine ⟨?_, ?_, fun h => ?_, fun h => ⟨?_, ?_⟩⟩
  · match t with
    | [] => rfl
    | c :: t2 => rfl
  · simp
  · simp [displayTextLine, Nat.not_lt.2 h, List.take_of_length_le h]
  · simp [displayTextLine, h]
  · simp [List.length_take]
    omega

/-- C6, witness: a 301-character text in the display path (cap 300 with
ellipsis), and a 2-character text kept whole. -/
theorem c6_truncation_caps_witness :
    displayTextLine (List.replicate 301 'b')
      = ("  Text: ").data ++ (List.replicate 301 'b').take 300 ++ ("...").data
    ∧ displayTextLine (("hi").data) = ("  Text: ").data ++ ("hi").data
    ∧ formatResultsForSummary
        [Json.obj [(("_source").data, Json.obj [(("message").data, Json.str (("hi").data))])]]
      = .ok ((("Result 1:\nUser: Unknown\nTime: N/A\nText: ").data
              ++ (("hi").data).take 500 ++ ['\n'])) :=
  ⟨((c6_truncation_caps (List.replicate 301 'b')).2.2.2 (by decide)).1,
   (c6_truncation_caps (("hi").data)).2.2.1 (by decide),
   (c6_truncation_caps (("hi").data)).1⟩

/-- C7, confirmed: for any serialised JSON object text `s` (it begins
with a brace and ends with a brace), the interpreter strips the reply
consisting of `s` wrapped in a fenced block with a leading `json` tag —
dropping the first and last lines and then any remaining leading
literal `json` tag — back to exactly `s`, so `json.loads` parses the
wrapped reply to the same structured object as the unwrapped text. -/
theorem c7_fenced_reply_roundtrip (s : Str) (hh : s.head? = some '{')
    (hl : s.getLast? = some '}') :
    stripFences (fenceWrapJson s) = s
    ∧ stripFences s = s
    ∧ jsonLoads (stripFences (fenceWrapJson s)) = jsonLoads (stripFences s) := by
  obtain ⟨l1, he⟩ := List.getLast?_eq_some_iff.mp hl
  subst he
  obtain ⟨mid, rfl⟩ : ∃ mid, l1 = '{' :: mid := by
    cases l1 with
    | nil => simp at hh
    | cons a t =>
      simp only [List.cons_append, List.head?_cons, Option.some.injEq] at hh
      exact ⟨t, by rw [hh]⟩
  have h1 : stripFences (fenceWrapJson ('{' :: mid ++ ['}'])) = '{' :: mid ++ ['}'] := by
    apply stripFences_wrap
    rfl
  have h2 : stripFences ('{' :: mid ++ ['}']) = '{' :: mid ++ ['}'] := stripFences_brace mid
  exact ⟨h1, h2, by rw [h1, h2]⟩

/-- C7, witness at the object text of a one-field JSON object. -/
theorem c7_fenced_reply_roundtrip_witness :
    stripFences (fenceWrapJson (("\x7b\"a\": 1\x7d").data)) = ("\x7b\"a\": 1\x7d").data
    ∧ stripFences (("\x7b\"a\": 1\x7d").data) = ("\x7b\"a\": 1\x7d").data
    ∧ jsonLoads (stripFences (fenceWrapJson (("\x7b\"a\": 1\x7d").data)))
        = jsonLoads (stripFences (("\x7b\"a\": 1\x7d").data)) :=
  c7_fenced_reply_roundtrip (("\x7b\"a\": 1\x7d").data) rfl rfl

/-- C8, confirmed: for the chat-format body whose single user message
content is `"[alice (123) at 2024-01-01]:\nfind gab posts about X"`,
the extracted query is exactly `"find gab posts about X"` — the text
after the first `"]:"`, whitespace-stripped. -/
theorem c8_query_extraction :
    extractQuery (Json.obj [(("messages").data,
        Json.arr [userMsg (("[alice (123) at 2024-01-01]:\nfind gab posts about X").data)])])
      = .ok (some (Json.str (("find gab posts about X").data))) := by
  rfl

/-- C5, counterexample: for the unparseable completion reply `"zzz"`,
the server interpreter (`parse_natural_language_query`) returns a
Failure whose entire message is the parse error — the raw model reply
`"zzz"` is not contained in it, contradicting the claim that both
interpreters attach the raw reply. -/
theorem c5_counterexample :
    parseNaturalLanguageQuery (("k").data) (.success (claudeBody (("zzz").data)))
      = .ok (.obj [(("error").data,
          .str (("Failed to parse query: Expecting value").data))])
    ∧ ¬ ((("zzz").data) <:+: (("Failed to parse query: Expecting value").data)) := by
  constructor
  · rfl
  · decide

/-- C5, amended: on a completion reply that is not valid JSON after
fence stripping, the CLI interpreter (`natural_language_search`)
returns a Failure carrying both the parse error and the raw unparsed
reply, while the server interpreter (`parse_natural_language_query`)
returns a Failure carrying only the parse error, without the raw
reply. -/
theorem c5_parse_failure_payload (key reply e : Str) (hk : key ≠ [])
    (he : jsonLoads (stripFences reply) = .error e)
    (searchOut : SearchOutcome) (summaryOut : HttpOutcome) :
    parseNaturalLanguageQuery key (.success (claudeBody reply))
      = .ok (.obj [(("error").data, .str (("Failed to parse query: ").data ++ e))])
    ∧ naturalLanguageSearch key (.success (claudeBody reply)) searchOut summaryOut
      = .ok (.obj [(("error").data,
          .str (("Failed to parse Claude\x27s response: ").data ++ e
            ++ ("\nResponse: ").data ++ reply))])
    ∧ e <:+: (("Failed to parse query: ").data ++ e)
    ∧ e <:+: (("Failed to parse Claude\x27s response: ").data ++ e
            ++ ("\nResponse: ").data ++ reply)
    ∧ reply <:+: (("Failed to parse Claude\x27s response: ").data ++ e
            ++ ("\nResponse: ").data ++ reply) := by
  have hcall : callClaude key (.success (claudeBody reply)) = .ok (.str reply) := by
    rw [callClaude, if_neg hk]; rfl
  refine ⟨?_, ?_, ?_, ?_, ?_⟩
  · simp only [parseNaturalLanguageQuery, hcall, py_bind_ok]
    rw [he]
  · rw [naturalLanguageSearch, if_neg hk, hcall]
    simp only [nlsTryBody]
    rw [he]
  · exact ⟨("Failed to parse query: ").data, [], by simp⟩
  · exact ⟨("Failed to parse Claude\x27s response: ").data, ("\nResponse: ").data ++ reply,
      by simp [List.append_assoc]⟩
  · exact ⟨("Failed to parse Claude\x27s response: ").data ++ e ++ ("\nResponse: ").data, [],
      by simp [List.append_assoc]⟩

/-- C5, witness: reply `"nope"`, whose parse error is
`"Expecting value"`. -/
theorem c5_parse_failure_payload_witness :
    parseNaturalLanguageQuery (("k").data) (.success (claudeBody (("nope").data)))
      = .ok (.obj [(("error").data,
          .str (("Failed to parse query: ").data ++ ("Expecting value").data))])
    ∧ naturalLanguageSearch (("k").data) (.success (claudeBody (("nope").data)))
        (.success (.obj [])) (.transportError [])
      = .ok (.obj [(("error").data,
          .str (("Failed to parse Claude\x27s response: ").data ++ ("Expecting value").data
            ++ ("\nResponse: ").data ++ (("nope").data)))]) :=
  ⟨(c5_parse_failure_payload (("k").data) (("nope").data) (("Expecting value").data)
      (by decide) rfl (.success (.obj [])) (.transportError [])).1,
   (c5_parse_failure_payload (("k").data) (("nope").data) (("Expecting value").data)
      (by decide) rfl (.success (.obj [])) (.transportError [])).2.1⟩

/-- C9, confirmed: when the completion call fails with a transport
error, `call_claude` returns the `"Error calling Claude API: ..."`
string as an ordinary reply; both interpreters then fail to parse it as
JSON (no JSON document starts with `E`), so the transport error is
surfaced as a JSON parse Failure — the server one without, the CLI one
with, the raw reply attached. -/
theorem c9_transport_error_as_parse_failure (key e : Str) (hk : key ≠ [])
    (searchOut : SearchOutcome) (summaryOut : HttpOutcome) :
    parseNaturalLanguageQuery key (.transportError e)
      = .ok (.obj [(("error").data,
          .str (("Failed to parse query: ").data ++ ("Expecting value").data))])
    ∧ naturalLanguageSearch key (.transportError e) searchOut summaryOut
      = .ok (.obj [(("error").data,
          .str (("Failed to parse Claude\x27s response: ").data ++ ("Expecting value").data
            ++ ("\nResponse: ").data ++ (("Error calling Claude API: ").data ++ e)))]) := by
  have hcall : callClaude key (.transportError e)
      = .ok (.str (("Error calling Claude API: ").data ++ e)) := by
    rw [callClaude, if_neg hk]
  have hcons : ("Error calling Claude API: ").data ++ e
      = 'E' :: (("rror calling Claude API: ").data ++ e) := rfl
  have hload : jsonLoads (stripFences (("Error calling Claude API: ").data ++ e))
      = .error (("Expecting value").data) := by
    rw [hcons, stripFences_eAscii, jsonLoads_cons_E]
  constructor
  · simp only [parseNaturalLanguageQuery, hcall, py_bind_ok]
    rw [hload]
  · rw [naturalLanguageSearch, if_neg hk, hcall]
    simp only [nlsTryBody]
    rw [hload]

/-- C9, witness at key `"k"` and transport error `"conn reset"`. -/
theorem c9_transport_error_as_parse_failure_witness :
    parseNaturalLanguageQuery (("k").data) (.transportError (("conn reset").data))
      = .ok (.obj [(("error").data,
          .str (("Failed to parse query: ").data ++ ("Expecting value").data))])
    ∧ naturalLanguageSearch (("k").data) (.transportError (("conn reset").data))
        (.success (.obj [])) (.transportError [])
      = .ok (.obj [(("error").data,
          .str (("Failed to parse Claude\x27s response: ").data ++ ("Expecting value").data
            ++ ("\nResponse: ").data
            ++ (("Error calling Claude API: ").data ++ (("conn reset").data))))]) :=
  c9_transport_error_as_parse_failure (("k").data) (("conn reset").data) (by decide)
    (.success (.obj [])) (.transportError [])

theorem lookupLast_some_ne_nil {fs : List (Str × Json)} {k : Str} {v : Json}
    (h : lookupLast fs k = some v) : fs ≠ [] := by
  intro hfs
  subst hfs
  simp [lookupLast] at h

/-- C2, counterexample: a chat-format request whose downstream search
fails with a transport error but which carries the header
`X-Request-Time: abc` makes the handler raise `ValueError` inside the
response construction — no HTTP 200 chat-completion response is
produced for this downstream search failure. -/
theorem c2_counterexample :
    statusOf (searchRoute (some (chatReq (("find stuff").data) (("m1").data))) (("k").data)
        (.success (claudeBody (("\x7b\"term\": \"x\"\x7d").data)))
        (.transportError (("boom").data)) (some (("abc").data))) = none
    ∧ (none : Option Nat) ≠ some 200 := by
  constructor
  · rfl
  · decide

/-- C2, amended: for every chat-format `/search` request that reaches
the downstream search and gets a Failure envelope back, **provided the
`X-Request-Time` header is absent or parses as an integer**, the
handler responds HTTP 200 with a chat-completion object whose assistant
message content contains both the search error text and the
reconstructed outbound request URL; the handler never converts such a
search failure itself into an HTTP error status (the only non-200
outcome is the unrelated header `ValueError`). -/
theorem c2_chat_search_failure (dfields pfields : List (Str × Json)) (key err : Str)
    (q mdl msgsVal : Json) (claudeOut : HttpOutcome) (xrt : Option Str) (cr : Int)
    (limJ minJ tJ sJ qJ : Json)
    (h1 : lookupLast dfields (("messages").data) = some msgsVal)
    (h2 : lookupLast dfields (("model").data) = some mdl)
    (h3 : extractQuery (Json.obj dfields) = .ok (some q))
    (h4 : pyTruthy q = true)
    (h5 : key ≠ [])
    (h6 : key ≠ ("your-claude-api-key-here").data)
    (h7 : parseNaturalLanguageQuery key claudeOut = .ok (Json.obj pfields))
    (h8 : lookupLast pfields (("error").data) = none)
    (hterm : pyGetD (Json.obj pfields) (("term").data) (.str []) = .ok tJ)
    (hsite : pyGetD (Json.obj pfields) (("site").data) (.str (("telegram").data)) = .ok sJ)
    (hlim : pyGetD (Json.obj pfields) (("limit").data) (.num 20) = .ok limJ)
    (hqt : pyGetD (Json.obj pfields) (("querytype").data) (.str (("content").data)) = .ok qJ)
    (hmin : pyMin limJ (.num 10000) = .ok minJ)
    (hcr : createdField xrt = .ok cr) :
    ∃ url, apiRequestUrl (Json.obj pfields) = .ok url
    ∧ searchRoute (some (Json.obj dfields)) key claudeOut (.transportError err) xrt
        = .resp 200 (chatCompletion mdl cr (errorContent (.str err) url))
    ∧ err <:+: errorContent (.str err) url
    ∧ url <:+: errorContent (.str err) url := by
  have hne : dfields ≠ [] := lookupLast_some_ne_nil h1
  have htr : pyTruthy (Json.obj dfields) = true := by simp [pyTruthy, hne]
  have hkeyb : (decide (key = []) || decide (key = ("your-claude-api-key-here").data))
      = false := by
    simp [h5, h6]
  have hmod : pyGetD (Json.obj dfields) (("model").data) (.str (("openai/gpt-oss-20b").data))
      = .ok mdl := by
    simp [pyGetD, h2]
  have hinf : ∀ (E U : Str),
      E <:+: errorContent (.str E) U ∧ U <:+: errorContent (.str E) U := by
    intro E U
    constructor
    · exact ⟨("Error searching Open Measures: ").data,
        ("\n\n**API Request Sent:**\n```\n").data ++ U ++ ("\n```").data,
        by simp [errorContent, pyStrJson, List.append_assoc]⟩
    · exact ⟨("Error searching Open Measures: ").data ++ E
          ++ ("\n\n**API Request Sent:**\n```\n").data,
        ("\n```").data,
        by simp [errorContent, pyStrJson, List.append_assoc]⟩
  refine ⟨_, rfl, ?_, (hinf err _).1, (hinf err _).2⟩
  · rw [searchRoute]
    simp only [htr, Bool.not_true, Bool.false_eq_true, if_false]
    simp only [routeCore, dispatchSearch, pyContains, h1, h2, Option.isSome_some,
      py_bind_ok, if_true, h3, h4, Bool.not_true, Bool.false_eq_true, if_false, hkeyb,
      h7, h8, Option.isSome_none, hterm, hsite, hlim, hqt, hmin, hmod, hcr,
      searchEnvelope]
    rfl

/-- C2, witness: a concrete chat request, a parsed `term` field, a
transport failure `"boom"`, and no `X-Request-Time` header. -/
theorem c2_chat_search_failure_witness :
    ∃ url, apiRequestUrl (Json.obj [(("term").data, .str (("x").data))]) = .ok url
    ∧ searchRoute (some (Json.obj [(("messages").data, .arr [userMsg (("find stuff").data)]),
          (("model").data, .str (("m1").data))]))
        (("k").data)
        (.success (claudeBody (("\x7b\"term\": \"x\"\x7d").data)))
        (.transportError (("boom").data)) none
        = .resp 200 (chatCompletion (.str (("m1").data)) 1234567890
            (errorContent (.str (("boom").data)) url))
    ∧ (("boom").data) <:+: errorContent (.str (("boom").data)) url
    ∧ url <:+: errorContent (.str (("boom").data)) url :=
  c2_chat_search_failure
    [(("messages").data, .arr [userMsg (("find stuff").data)]),
     (("model").data, .str (("m1").data))]
    [(("term").data, .str (("x").data))]
    (("k").data) (("boom").data)
    (.str (("find stuff").data)) (.str (("m1").data)) (.arr [userMsg (("find stuff").data)])
    (.success (claudeBody (("\x7b\"term\": \"x\"\x7d").data))) none 1234567890
    (.num 20) (.num 20) (.str (("x").data)) (.str (("telegram").data))
    (.str (("content").data))
    rfl rfl rfl rfl (by decide) (by decide) rfl rfl rfl rfl rfl rfl rfl rfl

/-- C10, confirmed: a `POST /search` body with a non-empty `messages`
array but no `model` field is handled as a simple-format request — the
query is still extracted from the last message, including the `"]:"`
actor-envelope stripping — so an interpretation failure yields HTTP 400
with the error and stage `"parsing"`, and a successful search yields
the raw search envelope, not a chat-completion object. -/
theorem c10_no_model_simple_format (dfields : List (Str × Json)) (key : Str)
    (q msgsVal : Json) (xrt : Option Str)
    (h1 : lookupLast dfields (("messages").data) = some msgsVal)
    (h2 : lookupLast dfields (("model").data) = none)
    (h3 : extractQuery (Json.obj dfields) = .ok (some q))
    (h4 : pyTruthy q = true)
    (h5 : key ≠ [])
    (h6 : key ≠ ("your-claude-api-key-here").data) :
    (∀ (claudeOut : HttpOutcome) (params errv : Json) (searchOut : SearchOutcome),
        parseNaturalLanguageQuery key claudeOut = .ok params →
        pyContains params (("error").data) = .ok true →
        pyGetItem params (("error").data) = .ok errv →
        searchRoute (some (Json.obj dfields)) key claudeOut searchOut xrt
          = .resp 400 (Json.obj [(("error").data, errv),
              (("stage").data, .str (("parsing").data))]))
    ∧ (∀ (claudeOut : HttpOutcome) (pfields : List (Str × Json)) (body tJ sJ limJ qJ minJ : Json),
        parseNaturalLanguageQuery key claudeOut = .ok (Json.obj pfields) →
        lookupLast pfields (("error").data) = none →
        pyGetD (Json.obj pfields) (("term").data) (.str []) = .ok tJ →
        pyGetD (Json.obj pfields) (("site").data) (.str (("telegram").data)) = .ok sJ →
        pyGetD (Json.obj pfields) (("limit").data) (.num 20) = .ok limJ →
        pyGetD (Json.obj pfields) (("querytype").data) (.str (("content").data)) = .ok qJ →
        pyMin limJ (.num 10000) = .ok minJ →
        searchRoute (some (Json.obj dfields)) key claudeOut (.success body) xrt
          = .resp 200 body)
    ∧ extractQuery (Json.obj [(("messages").data,
          .arr [userMsg (("[bob (9) at t]:\nfind x").data)])])
        = .ok (some (.str (("find x").data))) := by
  have hne : dfields ≠ [] := lookupLast_some_ne_nil h1
  have htr : pyTruthy (Json.obj dfields) = true := by simp [pyTruthy, hne]
  have hkeyb : (decide (key = []) || decide (key = ("your-claude-api-key-here").data))
      = false := by
    simp [h5, h6]
  have hMsgs : pyContains (Json.obj dfields) (("messages").data) = .ok true := by
    simp [pyContains, h1]
  have hModel : pyContains (Json.obj dfields) (("model").data) = .ok false := by
    simp [pyContains, h2]
  refine ⟨?_, ?_, rfl⟩
  · intro claudeOut params errv searchOut hp hpe hpi
    rw [searchRoute]
    simp only [htr, Bool.not_true, Bool.false_eq_true, if_false]
    simp only [routeCore, hMsgs, hModel, py_bind_ok, if_true, h3, h4, Bool.not_true,
      Bool.false_eq_true, if_false, hkeyb, hp, hpe, hpi]
  · intro claudeOut pfields body tJ sJ limJ qJ minJ hp hperr hterm hsite hlim hqt hmin
    have hPerr : pyContains (Json.obj pfields) (("error").data) = .ok false := by
      simp [pyContains, hperr]
    rw [searchRoute]
    simp only [htr, Bool.not_true, Bool.false_eq_true, if_false]
    simp only [routeCore, dispatchSearch, hMsgs, hModel, py_bind_ok, if_true, h3, h4,
      Bool.not_true, Bool.false_eq_true, if_false, hkeyb, hp, hPerr, hterm, hsite, hlim,
      hqt, hmin, searchEnvelope]

/-- C10, witness: the same no-`model` body through both outcomes — an
unparseable reply (400, stage `parsing`) and a successful search (raw
envelope back). -/
theorem c10_no_model_simple_format_witness :
    searchRoute (some (Json.obj [(("messages").data, .arr [userMsg (("find stuff").data)])]))
        (("k").data) (.success (claudeBody (("zzz").data))) (.success (.obj [])) none
      = .resp 400 (Json.obj [(("error").data,
          .str (("Failed to parse query: Expecting value").data)),
          (("stage").data, .str (("parsing").data))])
    ∧ searchRoute (some (Json.obj [(("messages").data, .arr [userMsg (("find stuff").data)])]))
        (("k").data) (.success (claudeBody (("\x7b\"term\": \"x\"\x7d").data)))
        (.success (.obj [(("hits").data, .num 3)])) none
      = .resp 200 (.obj [(("hits").data, .num 3)]) :=
  ⟨(c10_no_model_simple_format [(("messages").data, .arr [userMsg (("find stuff").data)])]
      (("k").data) (.str (("find stuff").data)) (.arr [userMsg (("find stuff").data)]) none
      rfl rfl rfl (by decide) (by decide) (by decide)).1
      (.success (claudeBody (("zzz").data)))
      (.obj [(("error").data, .str (("Failed to parse query: Expecting value").data))])
      (.str (("Failed to parse query: Expecting value").data))
      (.success (.obj [])) rfl rfl rfl,
   (c10_no_model_simple_format [(("messages").data, .arr [userMsg (("find stuff").data)])]
      (("k").data) (.str (("find stuff").data)) (.arr [userMsg (("find stuff").data)]) none
      rfl rfl rfl (by decide) (by decide) (by decide)).2.1
      (.success (claudeBody (("\x7b\"term\": \"x\"\x7d").data)))
      [(("term").data, .str (("x").data))]
      (.obj [(("hits").data, .num 3)])
      (.str (("x").data)) (.str (("telegram").data)) (.num 20) (.str (("content").data))
      (.num 20) rfl rfl rfl rfl rfl rfl rfl⟩

end OMApi
